import Mathlib

/-!
# Verification of the nmeta traffic-classification core

Shallow embedding, in Lean 4, of the two hard modules of the nmeta SDN
traffic-classification application:

* `tc_policy.py`   — the recursive condition evaluator (`_check_conditions`)
  and the per-rule action merge of `check_policy`;
* `tc_statistical.py` — the statistical classifier with its Flow
  Classification In Progress (FCIP) table.

Modelling conventions
* Python dictionaries that hold a policy condition stanza are modelled as
  ordered association lists (`CondEntries`); iteration order of a Python
  dict is some fixed order of its keys, which the list order represents.
* Python booleans/ints/dicts used in truthiness positions are modelled with
  explicit falsy cases (`Actions.falsy`, `Option`, the number `0`).
* Exceptions (KeyError, TypeError, IndexError, AttributeError,
  ZeroDivisionError, UnboundLocalError) are modelled with `Except String`.
* Wall-clock values produced by `time.time()` are passed in explicitly as a
  rational `now` parameter; floats are modelled by `ℚ`.
* The external collaborator matchers (`tc_static`, `tc_identity`,
  `tc_payload`) are not part of the two modules; the evaluator is
  parametrised over them (`Matchers`), with the packet folded into the
  oracle functions, so "for every packet" is "for every `Matchers`".
-/

mutual

/-- The value side of a Python policy dictionary entry: either a scalar
(strings and numbers are only compared for equality, so a `String`
suffices) or a nested conditions dictionary. Mutually inductive with
`CondEntries` so that all recursions below are structural. -/
inductive CondVal : Type where
  | s (v : String) : CondVal
  | dict (entries : CondEntries) : CondVal

/-- An ordered association list of policy-condition entries, modelling a
Python dict in its iteration order. -/
inductive CondEntries : Type where
  | nil : CondEntries
  | cons (key : String) (value : CondVal) (rest : CondEntries) : CondEntries

end

/-- `conditions['match_type']`: dictionary lookup (keys are unique in a
Python dict, so first match suffices). -/
def lookup_match_type : CondEntries → Option CondVal
  | .nil => none
  | .cons k v rest => if k == "match_type" then some v else lookup_match_type rest

/-- Appending two stanza fragments (used to state split lemmas). -/
def CondEntries.append : CondEntries → CondEntries → CondEntries
  | .nil, e => e
  | .cons k v r, e => .cons k v (r.append e)

/-- `policy_attr[0:10] == 'conditions'` / `policy_attr.split("_")[0]` from
`_check_conditions`: the attribute-type string used for dispatch.
(Implemented on the character list so that it reduces definitionally:
the first 10 characters, and the characters before the first `_`.) -/
def attr_type (k : String) : String :=
  if k.data.take 10 == "conditions".data then "conditions"
  else String.mk (k.data.takeWhile (fun c => c != '_'))

/-- Python `==` between a stored policy value and a string literal
(`self.match_type == "any"`): a dict never equals a string. -/
def cv_eq_str : CondVal → String → Bool
  | .s v, t => v == t
  | .dict _, _ => false

/-- Python actions value as it flows through the policy code: `0`/`False`
(falsy), the literal string `'none'` returned by `check_statistical` on an
unknown attribute, or a dict of action names to values. -/
inductive Actions : Type where
  | falsy : Actions
  | str (s : String) : Actions
  | dict (d : List (String × String)) : Actions
deriving DecidableEq

/-- Return dictionary of `tc_payload.check_payload`. -/
structure PayloadRet where
  matched : Bool
  continue_to_inspect : Bool

/-- The external matcher collaborators consulted by `_check_conditions`,
with the packet (and their internal state) folded in. Quantifying over
`Matchers` quantifies over packets. -/
structure Matchers where
  check_identity : String → CondVal → Bool
  check_payload : String → CondVal → PayloadRet
  check_static : String → CondVal → Bool

/-- `_result_dict` of `_check_conditions` / `check_policy` (the `match`
key is renamed `matched`: `match` is reserved in Lean). -/
structure EvalResult where
  matched : Bool
  continue_to_inspect : Bool
  actions : Actions
deriving DecidableEq

mutual

/-- `TrafficClassificationPolicy._check_conditions` (tc_policy.py
lines 319–401). The second component of the returned pair is the value of
the *instance* attribute `self.match_type` when the call returns: the
source stores the match type on `self`, so a recursive call on a nested
stanza overwrites it for the caller, which we model by threading it.
Calling the function on a scalar (a `conditions*` key whose value is not a
dict) raises a TypeError at `conditions['match_type']`; a stanza without a
`match_type` key raises a KeyError. -/
def checkConditions (m : Matchers) : CondVal → Except String (EvalResult × CondVal)
  | .s _ => .error "TypeError"
  | .dict entries =>
    match lookup_match_type entries with
    | none => .error "KeyError"
    | some mt =>
      condLoop m entries { matched := true, continue_to_inspect := false,
                           actions := .falsy } mt false

/-- The `for policy_attr in conditions.keys()` loop of `_check_conditions`,
threading `_result_dict` (`res`), `self.match_type` (`mt`) and the
per-iteration `_match` flag of the previous iteration (`last_match`, read
only by the post-loop fallback). -/
def condLoop (m : Matchers) :
    CondEntries → EvalResult → CondVal → Bool → Except String (EvalResult × CondVal)
  | .nil, res, mt, last_match =>
    -- post-loop fallback (lines 387–401)
    if !last_match && cv_eq_str mt "any" then .ok ({ res with matched := false }, mt)
    else if last_match && cv_eq_str mt "all" then .ok ({ res with matched := true }, mt)
    else .ok ({ res with matched := false }, mt)
  | .cons policy_attr policy_value rest, res, mt, _ =>
    let step : Except String (Bool × EvalResult × CondVal) :=
      if attr_type policy_attr == "identity" then
        .ok (m.check_identity policy_attr policy_value, res, mt)
      else if attr_type policy_attr == "payload" then
        let pd := m.check_payload policy_attr policy_value
        if pd.matched then
          .ok (true, { res with continue_to_inspect := pd.continue_to_inspect }, mt)
        else .ok (false, res, mt)
      else if attr_type policy_attr == "conditions" then
        match checkConditions m policy_value with
        | .error e => .error e
        | .ok (nested, mt2) =>
          .ok (nested.matched,
               { res with continue_to_inspect := nested.continue_to_inspect }, mt2)
      else if policy_attr == "match_type" then
        .ok (false, res, mt)
      else
        .ok (m.check_static policy_attr policy_value, res, mt)
    match step with
    | .error e => .error e
    | .ok (mtch, res2, mt2) =>
      -- decision block (lines 377–386), against the *current* self.match_type
      if mtch && cv_eq_str mt2 "any" then .ok ({ res2 with matched := true }, mt2)
      else if !mtch && cv_eq_str mt2 "all" then .ok ({ res2 with matched := false }, mt2)
      else condLoop m rest res2 mt2 mtch

end

/-- Python 2 `dict(items)` construction: later occurrences of a key
overwrite earlier ones, first-insertion order is kept. One insertion step. -/
def pyDictInsert (d : List (String × String)) (kv : String × String) :
    List (String × String) :=
  if d.any (fun p => p.1 == kv.1) then
    d.map (fun p => if p.1 == kv.1 then (p.1, kv.2) else p)
  else d ++ [kv]

/-- Python 2 `dict(l)` for a list of key/value pairs. -/
def pyDictOfItems (l : List (String × String)) : List (String × String) :=
  l.foldl pyDictInsert []

/-- The action-merging block of `check_policy` (tc_policy.py lines
298–310): `dict(rule_actions.items() + result_actions.items())` when both
are dicts, else whichever side is a dict, else `False`. -/
def merge_rule_actions (rule_actions result_actions : Actions) : Actions :=
  match rule_actions, result_actions with
  | .dict a, .dict b => .dict (pyDictOfItems (a ++ b))
  | .dict a, _ => .dict a
  | _, .dict b => .dict b
  | _, _ => .falsy

/-- One policy rule as `check_policy` consumes it: its conditions stanza
and its rule-level static actions. -/
structure PolicyRule where
  conditions : CondVal
  actions : Actions

/-- `TrafficClassificationPolicy.check_policy` (tc_policy.py lines
268–317), restricted to the classification result: the LLDP/IPv4
identity-harvesting side calls do not affect the returned dictionary and
are omitted. Rules are iterated in policy order; the first rule whose
conditions match has its rule-level actions merged with the evaluator's
actions. -/
def check_policy (m : Matchers) : List PolicyRule → Except String EvalResult
  | [] => .ok { matched := false, continue_to_inspect := false, actions := .falsy }
  | rule :: rest =>
    match checkConditions m rule.conditions with
    | .error e => .error e
    | .ok (res, _) =>
      if res.matched then
        .ok { res with actions := merge_rule_actions rule.actions res.actions }
      else check_policy m rest

/-! ## Helper functions describing a single loop iteration of
`_check_conditions` on a non-nested attribute (used to state the
short-circuit theorems). -/

/-- The `_match` flag computed for one attribute whose key is not a
`conditions*` key (dispatch order as in the source: identity, payload,
`match_type`, static). -/
def attr_step_match (m : Matchers) (k : String) (v : CondVal) : Bool :=
  if attr_type k == "identity" then m.check_identity k v
  else if attr_type k == "payload" then (m.check_payload k v).matched
  else if k == "match_type" then false
  else m.check_static k v

/-- The value of `_result_dict["continue_to_inspect"]` after one
non-nested attribute, given its previous value `c`: only a *matching*
payload attribute overwrites it. -/
def attr_step_ctin (m : Matchers) (k : String) (v : CondVal) (c : Bool) : Bool :=
  if attr_type k == "payload" && (m.check_payload k v).matched then
    (m.check_payload k v).continue_to_inspect
  else c

/-- `attr_step_ctin` folded over a stanza fragment. -/
def ctin_fold (m : Matchers) : CondEntries → Bool → Bool
  | .nil, c => c
  | .cons k v rest, c => ctin_fold m rest (attr_step_ctin m k v c)

/-- No key of the fragment is a nested `conditions*` key. -/
def no_nested_keys : CondEntries → Bool
  | .nil => true
  | .cons k _ rest => (attr_type k != "conditions") && no_nested_keys rest

/-- Every attribute of the fragment has `_match = false` (note the
`match_type` key itself always does). -/
def all_attrs_fail (m : Matchers) : CondEntries → Bool
  | .nil => true
  | .cons k v rest => !attr_step_match m k v && all_attrs_fail m rest

/-- Every attribute of the fragment has `_match = true`. -/
def all_attrs_match (m : Matchers) : CondEntries → Bool
  | .nil => true
  | .cons k v rest => attr_step_match m k v && all_attrs_match m rest


/-- C1. The attribute dispatch of `_check_conditions` has no branch for
the `statistical` attribute-name prefix, so a `statistical_*` attribute
falls through to the `else` branch and is checked by the *static*
matcher: for every packet and matcher behaviour (every `Matchers`) and
every policy value, the match result of the stanza
`{match_type: any, statistical_qos_bandwidth_1: v}` is exactly the static
matcher's verdict, and the statistical classifier's
`valid`/`continue_to_inspect` fields play no part (the instantiated
`StatisticalInspect` object is never consulted by `_check_conditions`).
This refutes the claim that `statistical_*` attributes are dispatched to
`check_statistical`. -/
theorem c1_statistical_attr_goes_to_static_matcher (m : Matchers) (v : CondVal) :
    checkConditions m
      (.dict (.cons "match_type" (.s "any")
        (.cons "statistical_qos_bandwidth_1" v .nil)))
    = .ok ({ matched := m.check_static "statistical_qos_bandwidth_1" v,
             continue_to_inspect := false, actions := .falsy }, .s "any") := by
  cases h : m.check_static "statistical_qos_bandwidth_1" v <;>
    simp [checkConditions, condLoop, lookup_match_type, attr_type, cv_eq_str, h]

/-- Matchers on which every attribute matches (used for the `C6`
failing input: a packet that satisfies every condition of the stanza). -/
def matchersAllTrue : Matchers :=
  { check_identity := fun _ _ => true
    check_payload := fun _ _ => { matched := true, continue_to_inspect := true }
    check_static := fun _ _ => true }

/-- C6. Failing input for the post-loop fallback claim: the stanza
`{eth_src: ..., match_type: all}` against a packet whose `eth_src`
matches (all non-skipped attributes match). The loop's per-iteration
`_match` flag is reset to `False` when the `match_type` key itself is
iterated, and the `all` short-circuit (`not _match and match_type ==
'all'`) then returns `match=False` immediately, so an `all` stanza whose
attributes all match still evaluates to `match=False` — the all-true
post-loop fallback of the claim is never reached for a well-formed
stanza. -/
theorem c6_all_stanza_with_all_attrs_matching_returns_false :
    checkConditions matchersAllTrue
      (.dict (.cons "eth_src" (.s "08:60:6e:7f:74:e7")
        (.cons "match_type" (.s "all") .nil)))
    = .ok ({ matched := false, continue_to_inspect := false,
             actions := .falsy }, .s "all") := rfl

/-- Matchers for the `C5` failing input: the static matcher accepts
`tcp_src` (attribute `B` of the nested subtree) and rejects `eth_src`
(attribute `A` of the outer node). -/
def matchersTcpOnly : Matchers :=
  { check_identity := fun _ _ => false
    check_payload := fun _ _ => { matched := false, continue_to_inspect := false }
    check_static := fun k _ => k == "tcp_src" }

/-- C5. Failing input for the nested-subtree claim: the outer tree
`{conditions 1: {match_type: any, tcp_src: B}, eth_src: A, match_type: all}`
where the nested `any` subtree matches and the outer attribute `eth_src`
does *not* match. Because `self.match_type` is an instance attribute, the
recursive call on the nested stanza overwrites it with `any`; back in the
outer loop the decision block then sees `match_type == 'any'` and returns
`match=True` immediately, never evaluating `eth_src` — instead of folding
the nested result into the outer `all` combination (which would yield
`match=False` since `eth_src` fails). -/
theorem c5_nested_match_type_leaks_into_outer_all :
    checkConditions matchersTcpOnly
      (.dict (.cons "conditions 1"
                (.dict (.cons "match_type" (.s "any")
                  (.cons "tcp_src" (.s "22") .nil)))
        (.cons "eth_src" (.s "08:60:6e:7f:74:e7")
        (.cons "match_type" (.s "all") .nil))))
    = .ok ({ matched := true, continue_to_inspect := false,
             actions := .falsy }, .s "any") := rfl

/-- C7 counterexample. An `any` node containing a matching attribute that
evaluates to `match=False`: in
`{match_type: any, conditions 1: {match_type: all, eth_src: ...}, ip_src: ..., tcp_src: ...}`
the nested `all` subtree fails (its own `match_type` key short-circuits
it to false) and overwrites the instance-level `self.match_type` with
`all`; the following non-matching outer attribute `ip_src` then triggers
the `all` short-circuit and the whole `any` node returns `match=False`
even though the later attribute `tcp_src` matches. This refutes the claim
as stated for arbitrary condition nodes. -/
theorem c7_any_node_with_matching_attr_returns_false :
    checkConditions matchersTcpOnly
      (.dict (.cons "match_type" (.s "any")
        (.cons "conditions 1"
          (.dict (.cons "match_type" (.s "all")
            (.cons "eth_src" (.s "x") .nil)))
        (.cons "ip_src" (.s "10.0.0.1")
        (.cons "tcp_src" (.s "22") .nil)))))
    = .ok ({ matched := false, continue_to_inspect := false,
             actions := .falsy }, .s "all") := rfl

/-- One iteration of the `_check_conditions` loop on an attribute that is
not a nested `conditions*` key, written with the per-attribute helpers:
the iteration computes `_match` (`attr_step_match`), lets a matching
payload attribute overwrite `continue_to_inspect` (`attr_step_ctin`), and
then runs the decision block against the current `self.match_type`. -/
theorem condLoop_cons_nonnested (m : Matchers) (k : String) (v : CondVal)
    (rest : CondEntries) (res : EvalResult) (mt : CondVal) (b : Bool)
    (hk : (attr_type k == "conditions") = false) :
    condLoop m (.cons k v rest) res mt b
      = (let mtch := attr_step_match m k v
         let res2 : EvalResult :=
           { res with continue_to_inspect :=
               attr_step_ctin m k v res.continue_to_inspect }
         if mtch && cv_eq_str mt "any" then .ok ({ res2 with matched := true }, mt)
         else if !mtch && cv_eq_str mt "all" then
           .ok ({ res2 with matched := false }, mt)
         else condLoop m rest res2 mt mtch) := by
  by_cases h1 : (attr_type k == "identity") = true
  · have h1e : attr_type k = "identity" := beq_iff_eq.mp h1
    simp [condLoop, attr_step_match, attr_step_ctin, h1, h1e]
  · by_cases h2 : (attr_type k == "payload") = true
    · have h2e : attr_type k = "payload" := beq_iff_eq.mp h2
      cases hp : (m.check_payload k v).matched <;>
        simp [condLoop, attr_step_match, attr_step_ctin, h1, h2, h2e, hp]
    · have h2e : ¬ attr_type k = "payload" := by simpa using h2
      by_cases h4 : (k == "match_type") = true
      · simp [condLoop, attr_step_match, attr_step_ctin, h1, h2, h2e, hk, h4]
      · simp [condLoop, attr_step_match, attr_step_ctin, h1, h2, h2e, hk, h4]

/-- A failing attribute never touches `continue_to_inspect` (only a
*matching* payload attribute does). -/
theorem attr_step_ctin_of_fail (m : Matchers) (k : String) (v : CondVal)
    (c : Bool) (hm : attr_step_match m k v = false) :
    attr_step_ctin m k v c = c := by
  by_cases h2 : (attr_type k == "payload") = true
  · have h1 : (attr_type k == "identity") = false := by
      have := beq_iff_eq.mp h2; simp [this]
    have : (m.check_payload k v).matched = false := by
      simpa [attr_step_match, h1, h2] using hm
    simp [attr_step_ctin, h2, this]
  · simp [attr_step_ctin, h2]

/-- Skip lemma: under current match type `any`, a fragment of non-nested,
non-matching attributes leaves `_result_dict`, `self.match_type` and the
`_match` flag unchanged. -/
theorem condLoop_skip_failing_any (m : Matchers) :
    ∀ (pre rest : CondEntries) (res : EvalResult),
    no_nested_keys pre = true → all_attrs_fail m pre = true →
    condLoop m (pre.append rest) res (.s "any") false
      = condLoop m rest res (.s "any") false
  | .nil, rest, res, _, _ => rfl
  | .cons k v pre, rest, res, hnn, hfail => by
    simp [no_nested_keys] at hnn
    simp [all_attrs_fail] at hfail
    have hk : (attr_type k == "conditions") = false := by simpa using hnn.1
    have hrec := condLoop_skip_failing_any m pre rest res hnn.2 hfail.2
    rw [CondEntries.append, condLoop_cons_nonnested m k v _ _ _ _ hk]
    simp only [hfail.1, cv_eq_str, attr_step_ctin_of_fail m k v _ hfail.1]
    simpa [cv_eq_str] using hrec

/-- Skip lemma: under current match type `all`, a fragment of non-nested,
matching attributes only folds matching payload attributes into
`continue_to_inspect`; the `_match` flag fed to the following `cons`
entry is irrelevant because the loop body ignores it. -/
theorem condLoop_skip_matching_all (m : Matchers) :
    ∀ (pre : CondEntries) (k : String) (v : CondVal) (post : CondEntries)
      (res : EvalResult) (b c : Bool),
    no_nested_keys pre = true → all_attrs_match m pre = true →
    condLoop m (pre.append (.cons k v post)) res (.s "all") b
      = condLoop m (.cons k v post)
          { res with continue_to_inspect :=
              ctin_fold m pre res.continue_to_inspect } (.s "all") c
  | .nil, k, v, post, res, b, c, _, _ => rfl
  | .cons k0 v0 pre, k, v, post, res, b, c, hnn, hall => by
    simp [no_nested_keys] at hnn
    simp [all_attrs_match] at hall
    have hk0 : (attr_type k0 == "conditions") = false := by simpa using hnn.1
    have hrec := condLoop_skip_matching_all m pre k v post
      { res with continue_to_inspect :=
          attr_step_ctin m k0 v0 res.continue_to_inspect } true c hnn.2 hall.2
    rw [CondEntries.append, condLoop_cons_nonnested m k0 v0 _ _ _ _ hk0]
    simp only [hall.1, cv_eq_str]
    simpa [cv_eq_str, ctin_fold] using hrec

/-- C7 (amended). Short-circuit semantics of `_check_conditions` for
condition nodes *none of whose attributes is a nested `conditions*`
subtree* (a nested subtree overwrites the instance-level
`self.match_type` and breaks the property — see the counterexample
`c7_any_node_with_matching_attr_returns_false`).
For `match_type = any`: writing the stanza as `pre ++ [(k,v)] ++ post`
where every attribute of `pre` fails and `(k,v)` matches, the evaluator
returns `match=True` with the `continue_to_inspect` produced by `(k,v)`
itself, and the result does not depend on `post` (later attributes are
not evaluated). For `match_type = all`: where every attribute of `pre`
matches and `(k,v)` fails (the skipped `match_type` key itself counts as
failing), the evaluator returns `match=False` with the
`continue_to_inspect` accumulated over `pre`, independent of `post`. -/
theorem c7_short_circuit_without_nested_subtrees :
    (∀ (m : Matchers) (pre : CondEntries) (k : String) (v : CondVal)
       (post : CondEntries),
      lookup_match_type (pre.append (.cons k v post)) = some (.s "any") →
      no_nested_keys pre = true →
      (attr_type k == "conditions") = false →
      all_attrs_fail m pre = true →
      attr_step_match m k v = true →
      checkConditions m (.dict (pre.append (.cons k v post)))
        = .ok ({ matched := true,
                 continue_to_inspect := attr_step_ctin m k v false,
                 actions := .falsy }, .s "any"))
    ∧
    (∀ (m : Matchers) (pre : CondEntries) (k : String) (v : CondVal)
       (post : CondEntries),
      lookup_match_type (pre.append (.cons k v post)) = some (.s "all") →
      no_nested_keys pre = true →
      (attr_type k == "conditions") = false →
      all_attrs_match m pre = true →
      attr_step_match m k v = false →
      checkConditions m (.dict (pre.append (.cons k v post)))
        = .ok ({ matched := false,
                 continue_to_inspect := ctin_fold m pre false,
                 actions := .falsy }, .s "all")) := by
  constructor
  · intro m pre k v post hlook hnn hk hfail hm
    simp only [checkConditions, hlook]
    rw [condLoop_skip_failing_any m pre (.cons k v post) _ hnn hfail,
        condLoop_cons_nonnested m k v _ _ _ _ hk]
    simp [hm, cv_eq_str]
  · intro m pre k v post hlook hnn hk hall hm
    simp only [checkConditions, hlook]
    rw [condLoop_skip_matching_all m pre k v post _ false false hnn hall,
        condLoop_cons_nonnested m k v _ _ _ _ hk]
    simp [hm, cv_eq_str, attr_step_ctin_of_fail m k v _ hm]

/-- C7 witness: the amended theorem applied to two concrete stanzas. In
`{match_type: any, eth_src: e, tcp_src: 22, ip_src: i}` (static matcher
accepts only `tcp_src`) the node matches with `continue_to_inspect`
false; in `{tcp_src: 22, eth_src: e, match_type: all}` the failing
`eth_src` short-circuits the node to `match=False`. -/
theorem c7_short_circuit_witness :
    checkConditions matchersTcpOnly
      (.dict (.cons "match_type" (.s "any")
        (.cons "eth_src" (.s "e")
        (.cons "tcp_src" (.s "22")
        (.cons "ip_src" (.s "i") .nil)))))
      = .ok ({ matched := true, continue_to_inspect := false,
               actions := .falsy }, .s "any")
    ∧
    checkConditions matchersTcpOnly
      (.dict (.cons "tcp_src" (.s "22")
        (.cons "eth_src" (.s "e")
        (.cons "match_type" (.s "all") .nil))))
      = .ok ({ matched := false, continue_to_inspect := false,
               actions := .falsy }, .s "all") := by
  constructor
  · exact c7_short_circuit_without_nested_subtrees.1 matchersTcpOnly
      (.cons "match_type" (.s "any") (.cons "eth_src" (.s "e") .nil))
      "tcp_src" (.s "22") (.cons "ip_src" (.s "i") .nil)
      rfl rfl rfl rfl rfl
  · exact c7_short_circuit_without_nested_subtrees.2 matchersTcpOnly
      (.cons "tcp_src" (.s "22") .nil)
      "eth_src" (.s "e") (.cons "match_type" (.s "all") .nil)
      rfl rfl rfl rfl rfl

/-- Key lookup in an association list (first occurrence; the lists built
by `pyDictOfItems` have unique keys). -/
def pyLookup (k : String) : List (String × String) → Option String
  | [] => none
  | p :: rest => if k == p.1 then some p.2 else pyLookup k rest

/-- The value attached to the *last* occurrence of key `k` in an item
list — the occurrence that survives Python 2 `dict(items)` construction. -/
def items_last_lookup (k : String) : List (String × String) → Option String
  | [] => none
  | p :: rest =>
    match items_last_lookup k rest with
    | some v => some v
    | none => if k == p.1 then some p.2 else none

/-- Key lookup in an `Actions` value (`none` when it is not a dict). -/
def actions_lookup : Actions → String → Option String
  | .dict d, k => pyLookup k d
  | _, _ => none

theorem pyLookup_map_overwrite_ne (k : String) (kv : String × String) :
    ∀ (d : List (String × String)), (k == kv.1) = false →
    pyLookup k (d.map (fun p => if p.1 == kv.1 then (p.1, kv.2) else p))
      = pyLookup k d
  | [], _ => rfl
  | (pk, pv) :: d, hk => by
    by_cases hkp : (k == pk) = true
    · have h2 : k = pk := beq_iff_eq.mp hkp
      have hp : (pk == kv.1) = false := by rw [← h2]; exact hk
      simp [List.map_cons, pyLookup, hp, hkp]
    · have hkp0 : (k == pk) = false := by simpa using hkp
      have hrec := pyLookup_map_overwrite_ne k kv d hk
      by_cases hp : (pk == kv.1) = true
      · simp [List.map_cons, pyLookup, hp, hkp0]
        simpa using hrec
      · have hp0 : (pk == kv.1) = false := by simpa using hp
        simp [List.map_cons, pyLookup, hp0, hkp0]
        simpa using hrec

theorem pyLookup_map_overwrite_mem (kv : String × String) :
    ∀ (d : List (String × String)), (d.any fun p => p.1 == kv.1) = true →
    pyLookup kv.1 (d.map (fun p => if p.1 == kv.1 then (p.1, kv.2) else p))
      = some kv.2
  | (pk, pv) :: d, hmem => by
    by_cases hp : (pk == kv.1) = true
    · have h2 : pk = kv.1 := beq_iff_eq.mp hp
      have : (kv.1 == pk) = true := by rw [h2]; simp
      simp [List.map_cons, pyLookup, hp, this]
    · have hp0 : (pk == kv.1) = false := by simpa using hp
      have hd : (d.any fun p => p.1 == kv.1) = true := by
        simpa [List.any_cons, hp0] using hmem
      have : (kv.1 == pk) = false := by
        simp only [beq_eq_false_iff_ne] at hp0 ⊢
        exact fun h => hp0 h.symm
      have hrec := pyLookup_map_overwrite_mem kv d hd
      simp [List.map_cons, pyLookup, hp0, this]
      simpa using hrec

theorem pyLookup_none_of_not_any (x : String) :
    ∀ (d : List (String × String)), (d.any fun p => p.1 == x) = false →
    pyLookup x d = none
  | [], _ => rfl
  | (pk, pv) :: d, h => by
    have hp : (pk == x) = false := by
      by_contra hc
      simp [List.any_cons, eq_true_of_ne_false hc] at h
    have hx : (x == pk) = false := by
      simp only [beq_eq_false_iff_ne] at hp ⊢
      exact fun hxe => hp hxe.symm
    have hd : (d.any fun p => p.1 == x) = false := by
      simpa [List.any_cons, hp] using h
    simp [pyLookup, hx, pyLookup_none_of_not_any x d hd]

theorem pyLookup_append (x : String) :
    ∀ (d l : List (String × String)),
    pyLookup x (d ++ l)
      = (match pyLookup x d with
         | some v => some v
         | none => pyLookup x l)
  | [], l => rfl
  | (pk, pv) :: d, l => by
    by_cases hx : (x == pk) = true
    · simp [pyLookup, hx]
    · have hx0 : (x == pk) = false := by simpa using hx
      simp [pyLookup, hx0, pyLookup_append x d l]

/-- Lookup through one Python-2 dict insertion: the inserted pair wins on
its own key and every other key is untouched. -/
theorem pyLookup_pyDictInsert (k : String) (kv : String × String)
    (d : List (String × String)) :
    pyLookup k (pyDictInsert d kv)
      = if k == kv.1 then some kv.2 else pyLookup k d := by
  by_cases hk : (k == kv.1) = true
  · have hke : k = kv.1 := beq_iff_eq.mp hk
    cases hany : d.any (fun p => p.1 == kv.1)
    · have hnone : pyLookup k d = none := by
        rw [hke]; exact pyLookup_none_of_not_any kv.1 d (by simpa using hany)
      rw [pyDictInsert, hany]
      simp only [Bool.false_eq_true, if_false, pyLookup_append k d [kv], hnone]
      simp [pyLookup, hk]
    · rw [pyDictInsert, hany, if_pos rfl, hke,
          pyLookup_map_overwrite_mem kv d hany, if_pos (by rw [hke] at hk; exact hk)]
  · have hk0 : (k == kv.1) = false := by simpa using hk
    cases hany : d.any (fun p => p.1 == kv.1)
    · rw [pyDictInsert, hany]
      simp only [Bool.false_eq_true, if_false, pyLookup_append k d [kv]]
      cases hd : pyLookup k d <;> simp [pyLookup, hk0, hd]
    · rw [pyDictInsert, hany, if_pos rfl, pyLookup_map_overwrite_ne k kv d hk0]
      simp [hk0]

/-- Lookup through Python-2 `dict(items)` built by a left fold: the last
occurrence of a key in the item list wins, and keys absent from the items
fall back to the accumulator. -/
theorem pyLookup_foldl_pyDictInsert (k : String) :
    ∀ (l d : List (String × String)),
    pyLookup k (l.foldl pyDictInsert d)
      = (match items_last_lookup k l with
         | some v => some v
         | none => pyLookup k d)
  | [], d => rfl
  | p :: l, d => by
    rw [List.foldl_cons, pyLookup_foldl_pyDictInsert k l (pyDictInsert d p)]
    cases hl : items_last_lookup k l <;>
      by_cases hk : (k == p.1) = true <;>
        simp [items_last_lookup, hl, hk, pyLookup_pyDictInsert]

theorem items_last_lookup_append (k : String) :
    ∀ (a b : List (String × String)),
    items_last_lookup k (a ++ b)
      = (match items_last_lookup k b with
         | some v => some v
         | none => items_last_lookup k a)
  | [], b => by cases hb : items_last_lookup k b <;> simp [items_last_lookup, hb]
  | p :: a, b => by
    rw [List.cons_append, items_last_lookup, items_last_lookup_append k a b,
        items_last_lookup]
    cases hb : items_last_lookup k b <;> cases ha : items_last_lookup k a <;>
      by_cases hk : (k == p.1) = true <;> simp [hb, ha, hk]

/-- C4 counterexample. On the key collision `set_qos_tag`, the merged
actions of `check_policy` keep the *evaluator's* (`_result_dict`) value
`"B"`, not the rule-level value `"A"`: in Python 2,
`dict(rule.items() + result.items())` lets the later `result` items
overwrite the rule-level ones. This refutes the claim that the rule-level
value wins on every key collision. -/
theorem c4_rule_level_value_loses_collision :
    merge_rule_actions (.dict [("set_qos_tag", "A")]) (.dict [("set_qos_tag", "B")])
      = .dict [("set_qos_tag", "B")] := rfl

/-- C4 (amended). The merge performed by `check_policy` on the first
matching rule: when both the rule-level actions and the evaluator's
per-condition actions are dicts the result is their union in which the
*evaluator's per-condition* value wins on every key collision (the last
occurrence of a key in `rule.items() ++ result.items()` wins); when only
one side is a dict the result is that side unchanged; when neither side
is a dict the result is `False`; and `check_policy` returns the first
matching rule's evaluation result with exactly this merge applied. -/
theorem c4_check_policy_merge_per_condition_wins :
    (∀ (a b : List (String × String)) (k : String),
      actions_lookup (merge_rule_actions (.dict a) (.dict b)) k
        = (match items_last_lookup k b with
           | some v => some v
           | none => items_last_lookup k a))
    ∧ (∀ (a : List (String × String)) (s : String),
        merge_rule_actions (.dict a) (.str s) = .dict a)
    ∧ (∀ (a : List (String × String)),
        merge_rule_actions (.dict a) .falsy = .dict a)
    ∧ (∀ (b : List (String × String)) (s : String),
        merge_rule_actions (.str s) (.dict b) = .dict b)
    ∧ (∀ (b : List (String × String)),
        merge_rule_actions .falsy (.dict b) = .dict b)
    ∧ (∀ (x y : Actions), (∀ d, x ≠ .dict d) → (∀ d, y ≠ .dict d) →
        merge_rule_actions x y = .falsy)
    ∧ (∀ (m : Matchers) (rule : PolicyRule) (rest : List PolicyRule)
         (res : EvalResult) (mt2 : CondVal),
        checkConditions m rule.conditions = .ok (res, mt2) →
        res.matched = true →
        check_policy m (rule :: rest)
          = .ok { res with actions := merge_rule_actions rule.actions res.actions }) := by
  refine ⟨?_, fun _ _ => rfl, fun _ => rfl, fun _ _ => rfl, fun _ => rfl, ?_, ?_⟩
  · intro a b k
    show pyLookup k (pyDictOfItems (a ++ b)) = _
    rw [pyDictOfItems, pyLookup_foldl_pyDictInsert k (a ++ b) [],
        items_last_lookup_append k a b]
    cases hb : items_last_lookup k b <;> cases ha : items_last_lookup k a <;>
      simp [pyLookup, hb, ha]
  · intro x y hx hy
    cases x with
    | dict d => exact absurd rfl (hx d)
    | falsy =>
      cases y with
      | dict d => exact absurd rfl (hy d)
      | falsy => rfl
      | str s => rfl
    | str s =>
      cases y with
      | dict d => exact absurd rfl (hy d)
      | falsy => rfl
      | str s2 => rfl
  · intro m rule rest res mt2 hcc hm
    simp [check_policy, hcc, hm]

/-- C4 witness: on the concrete item lists `[("set_qos_tag","A"),("x","1")]`
(rule level) and `[("set_qos_tag","B")]` (per condition), the merged
lookup of `set_qos_tag` is `"B"` and that of `x` is `"1"`; and
`check_policy` on one rule whose single `any` condition matches returns
the merged result. -/
theorem c4_check_policy_merge_witness :
    actions_lookup
      (merge_rule_actions (.dict [("set_qos_tag", "A"), ("x", "1")])
        (.dict [("set_qos_tag", "B")])) "set_qos_tag" = some "B"
    ∧ actions_lookup
        (merge_rule_actions (.dict [("set_qos_tag", "A"), ("x", "1")])
          (.dict [("set_qos_tag", "B")])) "x" = some "1"
    ∧ check_policy matchersTcpOnly
        [{ conditions := .dict (.cons "match_type" (.s "any")
             (.cons "tcp_src" (.s "22") .nil)),
           actions := .dict [("set_desc_tag", "ssh")] }]
        = .ok { matched := true, continue_to_inspect := false,
                actions := .dict [("set_desc_tag", "ssh")] } := by
  refine ⟨?_, ?_, ?_⟩
  · exact (c4_check_policy_merge_per_condition_wins.1
      [("set_qos_tag", "A"), ("x", "1")] [("set_qos_tag", "B")]
      "set_qos_tag").trans (by rfl)
  · exact (c4_check_policy_merge_per_condition_wins.1
      [("set_qos_tag", "A"), ("x", "1")] [("set_qos_tag", "B")] "x").trans (by rfl)
  · exact ((c4_check_policy_merge_per_condition_wins.2.2.2.2.2.2)
      matchersTcpOnly
      { conditions := .dict (.cons "match_type" (.s "any")
          (.cons "tcp_src" (.s "22") .nil)),
        actions := .dict [("set_desc_tag", "ssh")] }
      [] { matched := true, continue_to_inspect := false, actions := .falsy }
      (.s "any") rfl rfl).trans (by rfl)

/-! ## tc_statistical.py — data model

The Flow Classification In Progress (FCIP) table is an auto-vivifying
nested dictionary (`nmisc.AutoVivification`) in the source. We model a
table row with a record whose per-packet dictionaries (keyed 1..n in
insertion order) collapse into one `samples` list (sample `k` is
`samples[k-1]`); a field that a row of the other protocol never writes is
an `Option` whose `none` models the auto-vivified empty dict, which is
falsy and compares unequal to every number. The `window_scale` values use
`0` for "absent": the source only ever tests them for truthiness, and a
stored shift of `0` behaves identically to an absent one there. The
write-only `extra_debugging` per-packet statistics keys
(`max_packet_size`, `max_window_growth_ratio`, `min_interpacket`,
`last_interpacket`) are not stored, but their computation — which can
raise — is modelled. `time_last` is read by `maintain_fcip_table` but no
code path ever writes it, so rows carry it as an `Option` that all
constructors set to `none`. -/

/-- Direction of a packet relative to the first packet of its flow row. -/
inductive Direction : Type where
  | forward : Direction
  | reverse : Direction
deriving DecidableEq

/-- IPv4 header fields used by the classifier. -/
structure Ip4Part where
  src : String
  dst : String
  total_length : Nat
deriving DecidableEq

/-- TCP header fields used by the classifier (`bits` are the TCP flags,
`option` the raw options bytes). -/
structure TcpPart where
  src_port : Nat
  dst_port : Nat
  window_size : Nat
  ack : Nat
  bits : Nat
  option : List Nat
deriving DecidableEq

/-- UDP header fields used by the classifier. -/
structure UdpPart where
  src_port : Nat
  dst_port : Nat
  csum : Nat
deriving DecidableEq

/-- A decoded packet: `get_protocol` returns `None` for an absent layer. -/
structure Pkt where
  ip4 : Option Ip4Part
  tcp : Option TcpPart
  udp : Option UdpPart
deriving DecidableEq

/-- One per-packet sample of a flow row. `direction` is `none` when the
source stored the literal `False` returned by a failed `_fcip_check_ip`.
TCP rows store `window_size`/`ack`/`bits` (the window possibly scaled)
and write the `TCP_SYN` key for SYN packets (`tcp_syn`); UDP rows store
`csum`. -/
structure Sample where
  direction : Option Direction
  arrival_time : ℚ
  ip_total_length : Nat
  window_size : Option Nat
  ack : Option Nat
  bits : Option Nat
  tcp_syn : Bool
  csum : Option Nat
deriving DecidableEq

/-- One FCIP table row. -/
structure FlowRecord where
  ip_A : String
  ip_B : String
  tcp_A : Option Nat
  tcp_B : Option Nat
  udp_A : Option Nat
  udp_B : Option Nat
  window_scale_forward : Nat
  window_scale_reverse : Nat
  finalised : Bool
  actions : Actions
  number_of_packets : Nat
  samples : List Sample
  time_last : Option ℚ
deriving DecidableEq

/-- The FCIP table (`self._fcip_table`, rows in insertion order — Python 2
iterates the small consecutive integer keys in that order) together with
the next free reference (`self._fcip_ref`, starts at 1). -/
structure FcipState where
  table : List (Nat × FlowRecord)
  fcip_ref : Nat
deriving DecidableEq

/-- `self._fcip_table[ref]` when the row exists. -/
def lookupTable (t : List (Nat × FlowRecord)) (ref : Nat) : Option FlowRecord :=
  (t.find? (fun p => p.1 == ref)).map Prod.snd

/-- In-place update of one row (no-op on a missing reference; every call
site passes a live reference). -/
def updateTable (t : List (Nat × FlowRecord)) (ref : Nat)
    (f : FlowRecord → FlowRecord) : List (Nat × FlowRecord) :=
  t.map (fun p => if p.1 == ref then (p.1, f p.2) else p)

/-- Python `stored == n` where `stored` may be an auto-vivified empty
dict (never equal to a number). -/
def opt_eq_nat (o : Option Nat) (n : Nat) : Bool :=
  match o with
  | some a => a == n
  | none => false

/-- `_tcp_syn_flag` (tc_statistical.py lines 571–580). -/
def tcp_syn_flag (bits : Nat) : Bool :=
  bits &&& 2 != 0

/-- The `while _position <= _max_position` loop of `_tcp_window_scale`
(lines 582–617). Every iteration either returns, raises, or strictly
increases `_position` — except a TLV whose length byte is `0`, which
leaves `_position` unchanged and therefore loops forever; the fuel
argument exceeds the number of advancing iterations possible, so running
out of fuel (`"NonTermination"`) happens exactly when the source loop
diverges. `byte_key[i]` out of range raises IndexError. -/
def tcp_window_scale_loop (byte_key : List Nat) (max_position : Nat) :
    Nat → Nat → Except String Nat
  | 0, _ => .error "NonTermination"
  | fuel + 1, position =>
    if position ≤ max_position then
      match byte_key.get? position with
      | none => .error "IndexError"
      | some ty =>
        if ty == 0 then tcp_window_scale_loop byte_key max_position fuel (position + 1)
        else if ty == 1 then
          tcp_window_scale_loop byte_key max_position fuel (position + 1)
        else if ty == 3 then
          match byte_key.get? (position + 2) with
          | none => .error "IndexError"
          | some v => .ok v
        else
          match byte_key.get? (position + 1) with
          | none => .error "IndexError"
          | some len =>
            tcp_window_scale_loop byte_key max_position fuel (position + 1 + len - 1)
    else .ok 0

/-- `_tcp_window_scale`: `_max_position = len(byte_key)` (one *past* the
last valid index) and `_position` starts at `0`. -/
def tcp_window_scale (option : List Nat) : Except String Nat :=
  tcp_window_scale_loop option option.length (option.length + 2) 0

/-- `_calc_max_packet_size` (lines 190–199). -/
def calc_max_packet_size (r : FlowRecord) : Nat :=
  r.samples.foldl
    (fun max_size s =>
      if s.ip_total_length > max_size then s.ip_total_length else max_size) 0

/-- `_calc_max_window_growth` (lines 201–236). `_first_forward` /
`_first_reverse` latch the first *non-zero* window of their direction
(`if not _first_forward: _first_forward = _size` re-fires while the latch
is 0). `_forward_ratio` (resp. `_reverse_ratio`) is assigned only when
the direction has a non-zero first and max window; the final comparison
reads both and raises UnboundLocalError if either was never assigned. A
sample without a direction matches neither `if` and changes nothing.
(TCP rows always store a window size; `getD 0` covers the `Option`.) -/
def calc_max_window_growth (r : FlowRecord) : Except String ℚ :=
  let st := r.samples.foldl
    (fun (st : Nat × Nat × Nat × Nat) s =>
      let (first_forward, first_reverse, max_forward, max_reverse) := st
      let size := s.window_size.getD 0
      match s.direction with
      | some .forward =>
        ((if first_forward = 0 then size else first_forward), first_reverse,
         (if size > max_forward then size else max_forward), max_reverse)
      | some .reverse =>
        (first_forward, (if first_reverse = 0 then size else first_reverse),
         max_forward, (if size > max_reverse then size else max_reverse))
      | none => st)
    (0, 0, 0, 0)
  let (first_forward, first_reverse, max_forward, max_reverse) := st
  if first_forward ≠ 0 ∧ max_forward ≠ 0 then
    if first_reverse ≠ 0 ∧ max_reverse ≠ 0 then
      let forward_ratio : ℚ := (max_forward : ℚ) / (first_forward : ℚ)
      let reverse_ratio : ℚ := (max_reverse : ℚ) / (first_reverse : ℚ)
      .ok (if forward_ratio > reverse_ratio then forward_ratio
           else if reverse_ratio > forward_ratio then reverse_ratio
           else forward_ratio)
    else .error "UnboundLocalError"
  else .error "UnboundLocalError"

/-- `_calc_max_interpacket_interval` (lines 238–282): largest gap between
consecutive same-direction arrival times. A direction's first sample only
seeds `_previous_*`; `0` is falsy for both the `_previous_*` seeds and
the running maximum. The trailing `if not _max_interpacket: return 0` is
the identity on the accumulator. -/
def calc_max_interpacket_interval (r : FlowRecord) : ℚ :=
  (r.samples.foldl
    (fun (st : ℚ × ℚ × ℚ) s =>
      let (max_interpacket, previous_forward, previous_reverse) := st
      match s.direction with
      | some .forward =>
        if previous_forward ≠ 0 then
          let interpacket_interval := s.arrival_time - previous_forward
          ((if max_interpacket = 0 then interpacket_interval
            else if interpacket_interval > max_interpacket then interpacket_interval
            else max_interpacket),
           s.arrival_time, previous_reverse)
        else (max_interpacket, s.arrival_time, previous_reverse)
      | some .reverse =>
        if previous_reverse ≠ 0 then
          let interpacket_interval := s.arrival_time - previous_reverse
          ((if max_interpacket = 0 then interpacket_interval
            else if interpacket_interval > max_interpacket then interpacket_interval
            else max_interpacket),
           previous_forward, s.arrival_time)
        else (max_interpacket, previous_forward, s.arrival_time)
      | none => st)
    (0, 0, 0)).1

/-- `_calc_min_interpacket_interval` (lines 284–328). -/
def calc_min_interpacket_interval (r : FlowRecord) : ℚ :=
  (r.samples.foldl
    (fun (st : ℚ × ℚ × ℚ) s =>
      let (min_interpacket, previous_forward, previous_reverse) := st
      match s.direction with
      | some .forward =>
        if previous_forward ≠ 0 then
          let interpacket_interval := s.arrival_time - previous_forward
          ((if min_interpacket = 0 then interpacket_interval
            else if interpacket_interval < min_interpacket then interpacket_interval
            else min_interpacket),
           s.arrival_time, previous_reverse)
        else (min_interpacket, s.arrival_time, previous_reverse)
      | some .reverse =>
        if previous_reverse ≠ 0 then
          let interpacket_interval := s.arrival_time - previous_reverse
          ((if min_interpacket = 0 then interpacket_interval
            else if interpacket_interval < min_interpacket then interpacket_interval
            else min_interpacket),
           previous_forward, s.arrival_time)
        else (min_interpacket, previous_forward, s.arrival_time)
      | none => st)
    (0, 0, 0)).1

/-- `_calc_last_interpacket_interval` (lines 330–356). -/
def calc_last_interpacket_interval (r : FlowRecord) : ℚ :=
  (r.samples.foldl
    (fun (st : ℚ × ℚ × ℚ) s =>
      let (interpacket_interval, previous_forward, previous_reverse) := st
      match s.direction with
      | some .forward =>
        if previous_forward ≠ 0 then
          (s.arrival_time - previous_forward, s.arrival_time, previous_reverse)
        else (interpacket_interval, s.arrival_time, previous_reverse)
      | some .reverse =>
        if previous_reverse ≠ 0 then
          (s.arrival_time - previous_reverse, previous_forward, s.arrival_time)
        else (interpacket_interval, previous_forward, s.arrival_time)
      | none => st)
    (0, 0, 0)).1

/-- `_fcip_finalise` (lines 358–363): sets `finalised = 1`. -/
def fcip_finalise (st : FcipState) (table_ref : Nat) : FcipState :=
  { st with
    table := updateTable st.table table_ref (fun r => { r with finalised := true }) }

/-- `_fcip_is_finalised` (lines 365–374): `["finalised"] == 1` — an
auto-vivified value on a missing row compares unequal. -/
def fcip_is_finalised (st : FcipState) (table_ref : Nat) : Bool :=
  match lookupTable st.table table_ref with
  | some r => r.finalised
  | none => false

/-- `_fcip_check_ip` (lines 403–417): `'forward'`, `'reverse'` or `False`. -/
def fcip_check_ip (r : FlowRecord) (ip_A ip_B : String) : Option Direction :=
  if ip_A == r.ip_A && ip_B == r.ip_B then some .forward
  else if ip_A == r.ip_B && ip_B == r.ip_A then some .reverse
  else none

/-- `_fcip_check_tcp` (lines 419–437). -/
def fcip_check_tcp (r : FlowRecord) (ip_match : Direction) (tcp_A tcp_B : Nat) :
    Bool :=
  match ip_match with
  | .forward => opt_eq_nat r.tcp_A tcp_A && opt_eq_nat r.tcp_B tcp_B
  | .reverse => opt_eq_nat r.tcp_B tcp_A && opt_eq_nat r.tcp_A tcp_B

/-- The `for _table_ref in self._fcip_table` scan of `_fcip_check`: first
row matching IPs (either orientation) *and* TCP ports in that
orientation; a row that matches on IPs but not ports does not stop the
scan. -/
def fcip_check_scan (ip4 : Ip4Part) (t : TcpPart) :
    List (Nat × FlowRecord) → Option Nat
  | [] => none
  | (table_ref, r) :: rest =>
    match fcip_check_ip r ip4.src ip4.dst with
    | some ip_match =>
      if fcip_check_tcp r ip_match t.src_port t.dst_port then some table_ref
      else fcip_check_scan ip4 t rest
    | none => fcip_check_scan ip4 t rest

/-- `_fcip_check` (lines 376–401); accessing `.src` on a missing IPv4
layer raises AttributeError. -/
def fcip_check (pkt : Pkt) (table : List (Nat × FlowRecord)) :
    Except String (Option Nat) :=
  match pkt.ip4, pkt.tcp with
  | some ip4, some t => .ok (fcip_check_scan ip4 t table)
  | _, _ => .error "AttributeError"

/-- `_fcip_add_new` (lines 439–481): first packet of a new flow, direction
always `forward`; a SYN packet has its window-scale shift parsed from the
options (which can raise) and stored for the forward direction; the
window size itself is stored raw. -/
def fcip_add_new (now : ℚ) (pkt : Pkt) (st : FcipState) :
    Except String FcipState :=
  match pkt.ip4, pkt.tcp with
  | some ip4, some t =>
    match (if tcp_syn_flag t.bits then tcp_window_scale t.option else .ok 0) with
    | .error e => .error e
    | .ok tcp_window_shift =>
    let s : Sample :=
      { direction := some .forward
        arrival_time := now
        ip_total_length := ip4.total_length
        window_size := some t.window_size
        ack := some t.ack
        bits := some t.bits
        tcp_syn := tcp_syn_flag t.bits
        csum := none }
    let r : FlowRecord :=
      { ip_A := ip4.src
        ip_B := ip4.dst
        tcp_A := some t.src_port
        tcp_B := some t.dst_port
        udp_A := none
        udp_B := none
        window_scale_forward := tcp_window_shift
        window_scale_reverse := 0
        finalised := false
        actions := .falsy
        number_of_packets := 1
        samples := [s]
        time_last := none }
    .ok { table := st.table ++ [(st.fcip_ref, r)], fcip_ref := st.fcip_ref + 1 }
  | _, _ => .error "AttributeError"

/-- `_fcip_check_duplicate` (lines 549–569): the packet's *raw*
`(window_size, ack, bits)` against each stored sample in packet-number
order `1..number_of_packets` (`xrange(1, n+1)`); a packet number with no
stored sample auto-vivifies empty values that equal no number. -/
def fcip_check_duplicate (pkt : Pkt) (r : FlowRecord) : Except String Bool :=
  match pkt.tcp with
  | some t =>
    .ok ((List.range r.number_of_packets).any (fun i =>
      match r.samples.get? i with
      | some s =>
        opt_eq_nat s.window_size t.window_size && opt_eq_nat s.ack t.ack &&
          opt_eq_nat s.bits t.bits
      | none => false))
  | none => .error "AttributeError"

/-- The TCP-parameter block of `_fcip_add_to_existing` (lines 517–531):
a reverse SYN has its window-scale shift parsed from the options (which
can raise) and stored for the reverse direction; a non-SYN packet's
window size is left-shifted by its direction's stored shift when that
shift is truthy; a SYN's window size is stored raw. Returns the
(possibly updated) row together with the effective window size. -/
def fcip_window_branch (r : FlowRecord) (t : TcpPart)
    (direction : Option Direction) : Except String (FlowRecord × Nat) :=
  if tcp_syn_flag t.bits then
    if direction == some .reverse then
      match tcp_window_scale t.option with
      | .error e => .error e
      | .ok tcp_window_shift =>
        .ok ({ r with window_scale_reverse := tcp_window_shift }, t.window_size)
    else .ok (r, t.window_size)
  else
    let w1 :=
      if direction == some .forward && r.window_scale_forward != 0 then
        t.window_size <<< r.window_scale_forward
      else t.window_size
    let w2 :=
      if direction == some .reverse && r.window_scale_reverse != 0 then
        w1 <<< r.window_scale_reverse
      else w1
    .ok (r, w2)

/-- The row mutation of `_fcip_add_to_existing` (lines 502–534): the new
packet number is `number_of_packets + 1` and the sample — with the
direction computed by `_fcip_check_ip` against the row and the effective
window size from the TCP-parameter block — is appended to the row `r1`
(the row after any window-scale update). -/
def fcip_appended_row (now : ℚ) (ip4 : Ip4Part) (t : TcpPart)
    (r r1 : FlowRecord) (tcp_window_size : Nat) : FlowRecord :=
  { r1 with
    number_of_packets := r.number_of_packets + 1
    samples := r1.samples ++
      [{ direction := fcip_check_ip r ip4.src ip4.dst
         arrival_time := now
         ip_total_length := ip4.total_length
         window_size := some tcp_window_size
         ack := some t.ack
         bits := some t.bits
         tcp_syn := tcp_syn_flag t.bits
         csum := none }] }

/-- `_fcip_add_to_existing` (lines 483–547). A duplicate returns `0`
before any mutation. Otherwise the sample is appended: a reverse SYN has
its window-scale shift parsed (which can raise) and stored; a non-SYN
packet's window size is left-shifted by its direction's stored shift when
that shift is truthy. Because `self.extra_debugging = 1`, the source then
computes `_calc_max_packet_size`, `_calc_max_window_growth`,
`_calc_min_interpacket_interval` and `_calc_last_interpacket_interval`
on the updated row for write-only statistics keys;
`_calc_max_window_growth` raises UnboundLocalError unless both directions
hold a non-zero window size, and the raise escapes this function (the row
mutation has already happened in the source; the model reports only the
error). -/
def fcip_add_to_existing (now : ℚ) (pkt : Pkt) (table_ref : Nat)
    (st : FcipState) : Except String (Nat × FcipState) :=
  match pkt.ip4, pkt.tcp with
  | some ip4, some t =>
    match lookupTable st.table table_ref with
    | none => .error "TypeError"
    | some r =>
      match fcip_check_duplicate pkt r with
      | .error e => .error e
      | .ok dup =>
      if dup then .ok (0, st)
      else
        match fcip_window_branch r t (fcip_check_ip r ip4.src ip4.dst) with
        | .error e => .error e
        | .ok (r1, tcp_window_size) =>
          match calc_max_window_growth
              (fcip_appended_row now ip4 t r r1 tcp_window_size) with
          | .error e => .error e
          | .ok _ =>
            .ok (r.number_of_packets + 1,
                 { st with
                   table := updateTable st.table table_ref
                     (fun _ => fcip_appended_row now ip4 t r r1 tcp_window_size) })
  | _, _ => .error "AttributeError"

/-- Results dictionary of the statistical classifiers:
`{'valid': ..., 'continue_to_inspect': ..., 'actions': ...}`. -/
structure StatResult where
  valid : Bool
  continue_to_inspect : Bool
  actions : Actions
deriving DecidableEq

/-- `_statistical_qos_bandwidth_1` (lines 112–188): `_max_packets = 5`,
`_max_packet_size_threshold = 1200`, `_interpacket_ratio_threshold =
0.25`. Non-TCP packets are rejected; a finalised flow returns its cached
actions; a live flow has the packet appended (`0` on duplicate) and, when
the returned packet count exceeds `_max_packets - 1`, is finalised and
classified: low priority iff the maximum packet size exceeds 1200 *and*
the ratio of the minimum to the maximum same-direction inter-packet
interval is below 0.25 (the ratio is 0 when either interval is falsy);
the decision is cached in the row. An unknown flow starts a new row. -/
def statistical_qos_bandwidth_1 (now : ℚ) (pkt : Pkt) (st : FcipState) :
    Except String (StatResult × FcipState) :=
  match pkt.tcp with
  | none =>
    .ok ({ valid := true, continue_to_inspect := false, actions := .falsy }, st)
  | some _ =>
    match fcip_check pkt st.table with
    | .error e => .error e
    | .ok (some table_ref) =>
      if fcip_is_finalised st table_ref then
        match lookupTable st.table table_ref with
        | some r =>
          .ok ({ valid := true, continue_to_inspect := false,
                 actions := r.actions }, st)
        | none => .error "KeyError"
      else
        match fcip_add_to_existing now pkt table_ref st with
        | .error e => .error e
        | .ok (flow_packet_count, st1) =>
        if flow_packet_count > 5 - 1 then
          let st2 := fcip_finalise st1 table_ref
          match lookupTable st2.table table_ref with
          | none => .error "KeyError"
          | some r =>
            let max_packet_size := calc_max_packet_size r
            let max_interpacket_interval := calc_max_interpacket_interval r
            let min_interpacket_interval := calc_min_interpacket_interval r
            let interpacket_ratio : ℚ :=
              if max_interpacket_interval ≠ 0 ∧ min_interpacket_interval ≠ 0 then
                min_interpacket_interval / max_interpacket_interval
              else 0
            let acts : Actions :=
              if max_packet_size > 1200 ∧ interpacket_ratio < 1 / 4 then
                .dict [("set_qos_tag", "QoS_treatment=low_priority")]
              else
                .dict [("set_qos_tag", "QoS_treatment=default_priority")]
            let st3 : FcipState :=
              { st2 with
                table := updateTable st2.table table_ref
                  (fun r0 => { r0 with actions := acts }) }
            .ok ({ valid := true, continue_to_inspect := false,
                   actions := acts }, st3)
        else
          .ok ({ valid := true, continue_to_inspect := true,
                 actions := .falsy }, st1)
    | .ok none =>
      match fcip_add_new now pkt st with
      | .error e => .error e
      | .ok st1 =>
        .ok ({ valid := true, continue_to_inspect := true,
               actions := .falsy }, st1)

/-- `maintain_fcip_table` (lines 619–641): collect the references whose
(truthy) `time_last` is older than `max_age_fcip`, then delete them. No
code path ever writes a `time_last` key, so the truthiness test reads an
auto-vivified empty value on every row. -/
def maintain_fcip_table (now : ℚ) (max_age_fcip : ℚ) (st : FcipState) :
    FcipState :=
  let for_deletion :=
    (st.table.filter (fun p =>
      match p.2.time_last with
      | some time_last =>
        decide (time_last ≠ 0) && decide (now - time_last > max_age_fcip)
      | none => false)).map Prod.fst
  { st with table := st.table.filter (fun p => !(for_deletion.contains p.1)) }

/-- Per-direction statistics dictionary of the UDP classifier
(`{'forward': ..., 'reverse': ..., 'both': ...}`) over naturals. -/
structure UdpStatN where
  forward : Nat
  reverse : Nat
  both : Nat
deriving DecidableEq

/-- Per-direction statistics dictionary over rationals. -/
structure UdpStatQ where
  forward : ℚ
  reverse : ℚ
  both : ℚ
deriving DecidableEq

/-- `_udp_calc_max_packet_size` (lines 898–912): per-direction maxima,
`both` is the max of the two (the dict holds only `forward`/`reverse`
when `values()` is taken). Rows built by the UDP add functions always
store a direction. -/
def udp_calc_max_packet_size (r : FlowRecord) : UdpStatN :=
  let st := r.samples.foldl
    (fun (st : Nat × Nat) s =>
      match s.direction with
      | some .forward =>
        ((if s.ip_total_length > st.1 then s.ip_total_length else st.1), st.2)
      | some .reverse =>
        (st.1, (if s.ip_total_length > st.2 then s.ip_total_length else st.2))
      | none => st)
    (0, 0)
  { forward := st.1, reverse := st.2, both := max st.1 st.2 }

/-- `_udp_calc_max_interpacket_interval` (lines 914–961): like the TCP
version but per direction; the `if not _max_interpacket` exit is dead
(the dict is never empty) and `both` is the max of the two directions. -/
def udp_calc_max_interpacket_interval (r : FlowRecord) : UdpStatQ :=
  let st := r.samples.foldl
    (fun (st : ℚ × ℚ × ℚ × ℚ) s =>
      let (max_forward, max_reverse, previous_forward, previous_reverse) := st
      match s.direction with
      | some .forward =>
        if previous_forward ≠ 0 then
          let interpacket_interval := s.arrival_time - previous_forward
          ((if max_forward = 0 then interpacket_interval
            else if interpacket_interval > max_forward then interpacket_interval
            else max_forward),
           max_reverse, s.arrival_time, previous_reverse)
        else (max_forward, max_reverse, s.arrival_time, previous_reverse)
      | some .reverse =>
        if previous_reverse ≠ 0 then
          let interpacket_interval := s.arrival_time - previous_reverse
          (max_forward,
           (if max_reverse = 0 then interpacket_interval
            else if interpacket_interval > max_reverse then interpacket_interval
            else max_reverse),
           previous_forward, s.arrival_time)
        else (max_forward, max_reverse, previous_forward, s.arrival_time)
      | none => st)
    (0, 0, 0, 0)
  { forward := st.1, reverse := st.2.1, both := max st.1 st.2.1 }

/-- `_udp_calc_min_interpacket_interval` (lines 963–1010). -/
def udp_calc_min_interpacket_interval (r : FlowRecord) : UdpStatQ :=
  let st := r.samples.foldl
    (fun (st : ℚ × ℚ × ℚ × ℚ) s =>
      let (min_forward, min_reverse, previous_forward, previous_reverse) := st
      match s.direction with
      | some .forward =>
        if previous_forward ≠ 0 then
          let interpacket_interval := s.arrival_time - previous_forward
          ((if min_forward = 0 then interpacket_interval
            else if interpacket_interval < min_forward then interpacket_interval
            else min_forward),
           min_reverse, s.arrival_time, previous_reverse)
        else (min_forward, min_reverse, s.arrival_time, previous_reverse)
      | some .reverse =>
        if previous_reverse ≠ 0 then
          let interpacket_interval := s.arrival_time - previous_reverse
          (min_forward,
           (if min_reverse = 0 then interpacket_interval
            else if interpacket_interval < min_reverse then interpacket_interval
            else min_reverse),
           previous_forward, s.arrival_time)
        else (min_forward, min_reverse, previous_forward, s.arrival_time)
      | none => st)
    (0, 0, 0, 0)
  { forward := st.1, reverse := st.2.1, both := min st.1 st.2.1 }

/-- `_fcip_check_udp` (lines 778–792). -/
def fcip_check_udp (r : FlowRecord) (ip_match : Direction) (udp_A udp_B : Nat) :
    Bool :=
  match ip_match with
  | .forward => opt_eq_nat r.udp_A udp_A && opt_eq_nat r.udp_B udp_B
  | .reverse => opt_eq_nat r.udp_B udp_A && opt_eq_nat r.udp_A udp_B

/-- The table scan of `_udp_fcip_check`. -/
def udp_fcip_check_scan (ip4 : Ip4Part) (u : UdpPart) :
    List (Nat × FlowRecord) → Option Nat
  | [] => none
  | (table_ref, r) :: rest =>
    match fcip_check_ip r ip4.src ip4.dst with
    | some ip_match =>
      if fcip_check_udp r ip_match u.src_port u.dst_port then some table_ref
      else udp_fcip_check_scan ip4 u rest
    | none => udp_fcip_check_scan ip4 u rest

/-- `_udp_fcip_check` (lines 751–776). -/
def udp_fcip_check (pkt : Pkt) (table : List (Nat × FlowRecord)) :
    Except String (Option Nat) :=
  match pkt.ip4, pkt.udp with
  | some ip4, some u => .ok (udp_fcip_check_scan ip4 u table)
  | _, _ => .error "AttributeError"

/-- `_udp_fcip_check_duplicate` (lines 843–861): checksum match against
any stored sample. -/
def udp_fcip_check_duplicate (pkt : Pkt) (r : FlowRecord) : Except String Bool :=
  match pkt.udp with
  | some u =>
    .ok ((List.range r.number_of_packets).any (fun i =>
      match r.samples.get? i with
      | some s => opt_eq_nat s.csum u.csum
      | none => false))
  | none => .error "AttributeError"

/-- `_udp_fcip_add_new` (lines 863–896). -/
def udp_fcip_add_new (now : ℚ) (pkt : Pkt) (st : FcipState) :
    Except String FcipState :=
  match pkt.ip4, pkt.udp with
  | some ip4, some u =>
    let s : Sample :=
      { direction := some .forward
        arrival_time := now
        ip_total_length := ip4.total_length
        window_size := none
        ack := none
        bits := none
        tcp_syn := false
        csum := some u.csum }
    let r : FlowRecord :=
      { ip_A := ip4.src
        ip_B := ip4.dst
        tcp_A := none
        tcp_B := none
        udp_A := some u.src_port
        udp_B := some u.dst_port
        window_scale_forward := 0
        window_scale_reverse := 0
        finalised := false
        actions := .falsy
        number_of_packets := 1
        samples := [s]
        time_last := none }
    .ok { table := st.table ++ [(st.fcip_ref, r)], fcip_ref := st.fcip_ref + 1 }
  | _, _ => .error "AttributeError"

/-- `_udp_fcip_add_to_existing` (lines 794–841). The `extra_debugging`
statistics here call only the total calculators (no window growth), so
nothing can raise after the duplicate check. -/
def udp_fcip_add_to_existing (now : ℚ) (pkt : Pkt) (table_ref : Nat)
    (st : FcipState) : Except String (Nat × FcipState) :=
  match pkt.ip4, pkt.udp with
  | some ip4, some u =>
    match lookupTable st.table table_ref with
    | none => .error "TypeError"
    | some r =>
      match udp_fcip_check_duplicate pkt r with
      | .error e => .error e
      | .ok dup =>
      if dup then .ok (0, st)
      else
        let packet_number := r.number_of_packets + 1
        let direction := fcip_check_ip r ip4.src ip4.dst
        let s : Sample :=
          { direction := direction
            arrival_time := now
            ip_total_length := ip4.total_length
            window_size := none
            ack := none
            bits := none
            tcp_syn := false
            csum := some u.csum }
        let r2 : FlowRecord :=
          { r with number_of_packets := packet_number, samples := r.samples ++ [s] }
        .ok (packet_number,
             { st with table := updateTable st.table table_ref (fun _ => r2) })
  | _, _ => .error "AttributeError"

/-- `_statistical_voip_p2p` (lines 643–749). The debugging
`print _pkt_ipv4.src` runs before the UDP check, so a packet without an
IPv4 layer raises AttributeError even before non-UDP packets are
rejected. The truthiness guard on the interval dicts is always satisfied
(they are never empty), and the `both` ratio is computed *without* the
try/except that guards the per-direction ratios, so a zero maximum
interval raises ZeroDivisionError. The commented-out decision branch
always yields the default-priority tag. -/
def statistical_voip_p2p (now : ℚ) (pkt : Pkt) (st : FcipState) :
    Except String (StatResult × FcipState) :=
  match pkt.ip4 with
  | none => .error "AttributeError"
  | some _ =>
    match pkt.udp with
    | none =>
      .ok ({ valid := true, continue_to_inspect := false, actions := .falsy }, st)
    | some _ =>
      match udp_fcip_check pkt st.table with
      | .error e => .error e
      | .ok (some table_ref) =>
        if fcip_is_finalised st table_ref then
          match lookupTable st.table table_ref with
          | some r =>
            .ok ({ valid := true, continue_to_inspect := false,
                   actions := r.actions }, st)
          | none => .error "KeyError"
        else
          match udp_fcip_add_to_existing now pkt table_ref st with
          | .error e => .error e
          | .ok (flow_packet_count, st1) =>
          if flow_packet_count > 5 - 1 then
            let st2 := fcip_finalise st1 table_ref
            match lookupTable st2.table table_ref with
            | none => .error "KeyError"
            | some r =>
              let _max_packet_size := udp_calc_max_packet_size r
              let max_interpacket_interval := udp_calc_max_interpacket_interval r
              let min_interpacket_interval := udp_calc_min_interpacket_interval r
              if max_interpacket_interval.both = 0 then .error "ZeroDivisionError"
              else
                let _interpacket_ratio_both : ℚ :=
                  min_interpacket_interval.both / max_interpacket_interval.both
                let _interpacket_ratio_forward : Option ℚ :=
                  if max_interpacket_interval.forward = 0 then none
                  else some (min_interpacket_interval.forward /
                             max_interpacket_interval.forward)
                let _interpacket_ratio_reverse : Option ℚ :=
                  if max_interpacket_interval.reverse = 0 then none
                  else some (min_interpacket_interval.reverse /
                             max_interpacket_interval.reverse)
                let acts : Actions :=
                  .dict [("set_qos_tag", "QoS_treatment=default_priority")]
                let st3 : FcipState :=
                  { st2 with
                    table := updateTable st2.table table_ref
                      (fun r0 => { r0 with actions := acts }) }
                .ok ({ valid := true, continue_to_inspect := false,
                       actions := acts }, st3)
          else
            .ok ({ valid := true, continue_to_inspect := true,
                   actions := .falsy }, st1)
      | .ok none =>
        match udp_fcip_add_new now pkt st with
        | .error e => .error e
        | .ok st1 =>
          .ok ({ valid := true, continue_to_inspect := true,
                 actions := .falsy }, st1)

/-- What `check_statistical` hands back to its caller: the results
dictionary, or the bare boolean `False`. -/
inductive CheckStatRet : Type where
  | dict (d : StatResult) : CheckStatRet
  | pyFalse : CheckStatRet
deriving DecidableEq

/-- `check_statistical` (tc_statistical.py lines 90–110). For
`statistical_qos_bandwidth_1` the results dictionary is returned; for
`statistical_voip_p2p` the `return results_dict` line is commented out in
the source, so after running the classifier (for its side effects on the
table) control falls through to the trailing `return False`; any other
attribute yields `{'valid': False, 'continue_to_inspect': False,
'actions': 'none'}` (a *string* `'none'`). -/
def check_statistical (policy_attr : String) (_policy_value : String)
    (now : ℚ) (pkt : Pkt) (st : FcipState) :
    Except String (CheckStatRet × FcipState) :=
  if policy_attr == "statistical_qos_bandwidth_1" then
    match statistical_qos_bandwidth_1 now pkt st with
    | .error e => .error e
    | .ok (results_dict, st1) => .ok (.dict results_dict, st1)
  else if policy_attr == "statistical_voip_p2p" then
    match statistical_voip_p2p now pkt st with
    | .error e => .error e
    | .ok (_results_dict, st1) => .ok (.pyFalse, st1)
  else
    .ok (.dict { valid := false, continue_to_inspect := false,
                 actions := .str "none" }, st)

theorem opt_eq_nat_eq_true_iff (o : Option Nat) (n : Nat) :
    opt_eq_nat o n = true ↔ o = some n := by
  cases o <;> simp [opt_eq_nat]

theorem lookupTable_updateTable (ref : Nat) (f : FlowRecord → FlowRecord) :
    ∀ (t : List (Nat × FlowRecord)),
    lookupTable (updateTable t ref f) ref = (lookupTable t ref).map f
  | [] => rfl
  | p :: t => by
    by_cases hp : (p.1 == ref) = true
    · simp [lookupTable, updateTable, List.find?, hp]
    · have hp0 : (p.1 == ref) = false := by simpa using hp
      have := lookupTable_updateTable ref f t
      simp [lookupTable, updateTable, List.find?, hp0] at this ⊢
      exact this

theorem lookupTable_mem {t : List (Nat × FlowRecord)} {ref : Nat}
    {r : FlowRecord} (h : lookupTable t ref = some r) :
    ∃ q ∈ t, q.2 = r := by
  unfold lookupTable at h
  cases hf : t.find? (fun p => p.1 == ref) with
  | none => rw [hf] at h; simp at h
  | some q =>
    rw [hf] at h
    simp at h
    exact ⟨q, List.mem_of_find?_eq_some hf, h⟩

/-- C8. Failing input for the options-parser safety claim: a TCP SYN
packet with an *empty* options byte sequence. `_tcp_window_scale` sets
`_max_position = len(byte_key)` and loops `while _position <=
_max_position`, so with no options it reads `byte_key[0]` of an empty
bytearray and raises IndexError instead of returning 0; likewise options
consisting of a single end-of-options or NOP byte, or of a non-type-3
TLV whose declared length ends exactly at the buffer, run the position to
`len(byte_key)` — still inside the loop bound — and raise. This refutes
the claim that the parser never reads past the end and returns 0 whenever
no window-scale TLV is present. -/
theorem c8_window_scale_reads_past_end :
    tcp_window_scale [] = .error "IndexError"
    ∧ tcp_window_scale [0] = .error "IndexError"
    ∧ tcp_window_scale [1] = .error "IndexError"
    ∧ tcp_window_scale [2, 4, 9, 9] = .error "IndexError" :=
  ⟨rfl, rfl, rfl, rfl⟩

/-- A TCP (IPv4, non-UDP) packet used as the C3 failing input. -/
def c3_pkt : Pkt :=
  { ip4 := some { src := "10.0.0.1", dst := "10.0.0.2", total_length := 40 }
    tcp := some { src_port := 52656, dst_port := 22, window_size := 29200,
                  ack := 0, bits := 16, option := [] }
    udp := none }

/-- C3. Failing input for the `check_statistical` contract claim: for the
supported attribute `statistical_voip_p2p` the function returns the bare
boolean `False`, not a results dictionary — its `return results_dict`
line is commented out in the source, so after `_statistical_voip_p2p`
runs, control falls through to the trailing `return False`. (For
`statistical_qos_bandwidth_1` the dictionary *is* returned: third
conjunct, where the packet starts a new flow row.) This contradicts the
function's own docstring, which promises a dictionary with the keys
`valid`, `continue_to_inspect` and `actions`. -/
theorem c3_check_statistical_voip_returns_bare_false :
    check_statistical "statistical_voip_p2p" "version1" 5 c3_pkt ⟨[], 1⟩
      = .ok (.pyFalse, ⟨[], 1⟩)
    ∧ (∀ d : StatResult,
        check_statistical "statistical_voip_p2p" "version1" 5 c3_pkt ⟨[], 1⟩
          ≠ .ok (.dict d, ⟨[], 1⟩))
    ∧ check_statistical "statistical_qos_bandwidth_1" "version1" 5 c3_pkt ⟨[], 1⟩
      = .ok (.dict { valid := true, continue_to_inspect := true,
                     actions := .falsy },
             ⟨[(1, { ip_A := "10.0.0.1", ip_B := "10.0.0.2",
                     tcp_A := some 52656, tcp_B := some 22,
                     udp_A := none, udp_B := none,
                     window_scale_forward := 0, window_scale_reverse := 0,
                     finalised := false, actions := .falsy,
                     number_of_packets := 1,
                     samples := [{ direction := some .forward, arrival_time := 5,
                                   ip_total_length := 40,
                                   window_size := some 29200, ack := some 0,
                                   bits := some 16, tcp_syn := false,
                                   csum := none }],
                     time_last := none })], 2⟩) := by
  refine ⟨rfl, ?_, rfl⟩
  intro d h
  rw [show check_statistical "statistical_voip_p2p" "version1" 5 c3_pkt ⟨[], 1⟩
      = .ok (.pyFalse, ⟨[], 1⟩) from rfl] at h
  simp at h

theorem fcip_window_branch_time_last {r : FlowRecord} {t : TcpPart}
    {d : Option Direction} {r1 : FlowRecord} {w : Nat}
    (h : fcip_window_branch r t d = .ok (r1, w)) :
    r1.time_last = r.time_last := by
  unfold fcip_window_branch at h
  split at h
  · split at h
    · split at h
      · simp at h
      · simp only [Except.ok.injEq, Prod.mk.injEq] at h
        rw [← h.1]
    · simp only [Except.ok.injEq, Prod.mk.injEq] at h
      rw [← h.1]
  · simp only [Except.ok.injEq, Prod.mk.injEq] at h
    rw [← h.1]

/-- No row of the table carries a `time_last` value. -/
def no_time_last (st : FcipState) : Prop :=
  ∀ p ∈ st.table, p.2.time_last = none

/-- C2. The aging sweep deletes nothing: `maintain_fcip_table` keys its
age test on the `time_last` row attribute, but the sample writers record
arrival times under `arrival_time` and *no code path ever writes
`time_last`*, so the truthiness test `if row['time_last']` sees an
auto-vivified empty value on every row, no row is ever collected for
deletion — however stale — and no `last_seen` timestamp is updated on
accepted samples. Conjuncts: the sweep is the identity on any table whose
rows lack `time_last`, and the TCP writers (`_fcip_add_new`,
`_fcip_add_to_existing`) preserve that universal absence, so it is an
invariant of every reachable table. -/
theorem c2_sweep_deletes_nothing :
    (∀ (now max_age_fcip : ℚ) (st : FcipState), no_time_last st →
      maintain_fcip_table now max_age_fcip st = st)
    ∧ (∀ (now : ℚ) (pkt : Pkt) (st st1 : FcipState), no_time_last st →
        fcip_add_new now pkt st = .ok st1 → no_time_last st1)
    ∧ (∀ (now : ℚ) (pkt : Pkt) (table_ref : Nat) (st : FcipState) (n : Nat)
         (st1 : FcipState), no_time_last st →
        fcip_add_to_existing now pkt table_ref st = .ok (n, st1) →
        no_time_last st1) := by
  refine ⟨?_, ?_, ?_⟩
  · intro now max_age_fcip st h
    unfold maintain_fcip_table
    have h1 : st.table.filter (fun p =>
        match p.2.time_last with
        | some time_last =>
          decide (time_last ≠ 0) && decide (now - time_last > max_age_fcip)
        | none => false) = [] := by
      rw [List.filter_eq_nil_iff]
      intro p hp
      simp [h p hp]
    rw [h1]
    simp
  · intro now pkt st st1 h hadd
    unfold fcip_add_new at hadd
    split at hadd
    · split at hadd
      · simp at hadd
      · simp only [Except.ok.injEq] at hadd
        intro p hp
        rw [← hadd] at hp
        simp only [List.mem_append, List.mem_singleton] at hp
        rcases hp with hp | hp
        · exact h p hp
        · rw [hp]
    · simp at hadd
  · intro now pkt table_ref st n st1 h hadd
    unfold fcip_add_to_existing at hadd
    split at hadd
    · split at hadd
      · simp at hadd
      · rename_i r hlk
        split at hadd
        · simp at hadd
        · rename_i dup hdup
          split at hadd
          · simp only [Except.ok.injEq, Prod.mk.injEq] at hadd
            rw [← hadd.2]
            exact h
          · split at hadd
            · simp at hadd
            · rename_i r1 wsize heqw
              split at hadd
              · simp at hadd
              · simp only [Except.ok.injEq, Prod.mk.injEq] at hadd
                obtain ⟨q, hq, hqr⟩ := lookupTable_mem hlk
                have hrtl : r.time_last = none := by rw [← hqr]; exact h q hq
                have hr1 : r1.time_last = none := by
                  rw [fcip_window_branch_time_last heqw]
                  exact hrtl
                rw [← hadd.2]
                intro p hp
                simp only [updateTable, List.mem_map] at hp
                obtain ⟨q2, hq2, hfq2⟩ := hp
                by_cases hq2ref : (q2.1 == table_ref) = true
                · rw [if_pos hq2ref] at hfq2
                  rw [← hfq2]
                  show (fcip_appended_row _ _ _ _ _ _).time_last = none
                  exact hr1
                · rw [if_neg hq2ref] at hfq2
                  rw [← hfq2]
                  exact h q2 hq2
    · simp at hadd

/-- A long-stale flow row: its samples were accepted at times 1 and 2 and
(like every row the code ever builds) it carries no `time_last`. -/
def c2_old_row : FlowRecord :=
  { ip_A := "a", ip_B := "b", tcp_A := some 1, tcp_B := some 2,
    udp_A := none, udp_B := none, window_scale_forward := 0,
    window_scale_reverse := 0, finalised := false, actions := .falsy,
    number_of_packets := 2,
    samples := [{ direction := some .forward, arrival_time := 1,
                  ip_total_length := 100, window_size := some 1, ack := some 0,
                  bits := some 16, tcp_syn := false, csum := none },
                { direction := some .reverse, arrival_time := 2,
                  ip_total_length := 100, window_size := some 2, ack := some 0,
                  bits := some 16, tcp_syn := false, csum := none }],
    time_last := none }

/-- C2 witness: sweeping with `max_age_fcip = 60` at time 1000000 a table
whose only row was last touched at time 2 removes nothing. -/
theorem c2_sweep_witness :
    maintain_fcip_table 1000000 60 ⟨[(1, c2_old_row)], 2⟩
      = ⟨[(1, c2_old_row)], 2⟩ :=
  c2_sweep_deletes_nothing.1 1000000 60 ⟨[(1, c2_old_row)], 2⟩ (by
    intro p hp
    simp only [List.mem_singleton] at hp
    rw [hp]
    rfl)

/-- Forward SYN opening the C10 flow: window 8, window-scale option with
shift 1 (`[3,3,1]`). -/
def c10_pkt1 : Pkt :=
  { ip4 := some { src := "a", dst := "b", total_length := 100 }
    tcp := some { src_port := 1, dst_port := 2, window_size := 8, ack := 0,
                  bits := 2, option := [3, 3, 1] }
    udp := none }

/-- Reverse SYN (bits 18 = SYN|ACK), window 9, also carrying shift 1. -/
def c10_pkt2 : Pkt :=
  { ip4 := some { src := "b", dst := "a", total_length := 100 }
    tcp := some { src_port := 2, dst_port := 1, window_size := 9, ack := 1,
                  bits := 18, option := [3, 3, 1] }
    udp := none }

/-- Forward non-SYN data packet: raw window 100 — stored as 200 after the
forward shift of 1 is applied. -/
def c10_pkt3 : Pkt :=
  { ip4 := some { src := "a", dst := "b", total_length := 100 }
    tcp := some { src_port := 1, dst_port := 2, window_size := 100, ack := 5,
                  bits := 16, option := [] }
    udp := none }

/-- C10 counterexample. Running the table's own constructors: after the
forward SYN (shift 1 learned), the reverse SYN, and the non-SYN data
packet `c10_pkt3` (stored with its window *scaled* to 200), re-submitting
the *identical* packet `c10_pkt3` is **not** recognised as a duplicate:
`_fcip_check_duplicate` compares the packet's raw window size 100 against
the stored scaled 200, finds no matching `(window_size, ack, bits)`
sample, and the packet is appended as sample 4 — the add returns packet
number 4 (not the duplicate sentinel 0) and mutates the row
(`st4 == st3` is false). This refutes the claim's parenthetical that a
re-submitted packet whose stored window size was recorded after
window-scale shifting is recognised as a duplicate. -/
theorem c10_scaled_resubmission_not_duplicate :
    (do
      let st1 ← fcip_add_new 10 c10_pkt1 ⟨[], 1⟩
      let (n2, st2) ← fcip_add_to_existing 11 c10_pkt2 1 st1
      let (n3, st3) ← fcip_add_to_existing 12 c10_pkt3 1 st2
      let (n4, st4) ← fcip_add_to_existing 13 c10_pkt3 1 st3
      pure (n2, n3, n4, st4 == st3) : Except String (Nat × Nat × Nat × Bool))
    = .ok (2, 3, 4, false) := rfl

/-- C10 (amended). `_fcip_check_duplicate` reports a duplicate iff the
packet's *raw* `(window_size, ack, bits)` triple equals the *stored*
triple of some sample with packet number `1..number_of_packets` — where
stored window sizes may have been left-shifted by the learned
window-scale, so a packet identical to one stored after scaling (with a
non-zero shift and window) is in general *not* detected (see the
counterexample) — and on the duplicate path `_fcip_add_to_existing`
returns the sentinel `0` with the table state unchanged (no new sample
index, `number_of_packets` untouched). -/
theorem c10_duplicate_iff_raw_tuple_matches :
    (∀ (pkt : Pkt) (t : TcpPart) (r : FlowRecord), pkt.tcp = some t →
      (fcip_check_duplicate pkt r = .ok true ↔
        ∃ i, i < r.number_of_packets ∧ ∃ s, r.samples.get? i = some s ∧
          s.window_size = some t.window_size ∧ s.ack = some t.ack ∧
          s.bits = some t.bits))
    ∧ (∀ (now : ℚ) (pkt : Pkt) (table_ref : Nat) (st : FcipState)
         (r : FlowRecord), lookupTable st.table table_ref = some r →
        pkt.ip4.isSome = true → pkt.tcp.isSome = true →
        fcip_check_duplicate pkt r = .ok true →
        fcip_add_to_existing now pkt table_ref st = .ok (0, st)) := by
  constructor
  · intro pkt t r htcp
    unfold fcip_check_duplicate
    rw [htcp]
    simp only [Except.ok.injEq, List.any_eq_true, List.mem_range]
    constructor
    · rintro ⟨i, hi, hf⟩
      refine ⟨i, hi, ?_⟩
      cases hget : r.samples.get? i with
      | none => rw [hget] at hf; simp at hf
      | some s =>
        rw [hget] at hf
        simp only [Bool.and_eq_true, opt_eq_nat_eq_true_iff] at hf
        exact ⟨s, rfl, hf.1.1, hf.1.2, hf.2⟩
    · rintro ⟨i, hi, s, hget, h1, h2, h3⟩
      refine ⟨i, hi, ?_⟩
      rw [hget]
      simp [opt_eq_nat, h1, h2, h3]
  · intro now pkt table_ref st r hlk hip htcp hdup
    rcases pkt with ⟨oip, otcp, oudp⟩
    cases oip with
    | none => simp at hip
    | some ip4 =>
      cases otcp with
      | none => simp at htcp
      | some t => simp [fcip_add_to_existing, hlk, hdup]

/-- The row after the first C10 packet, and the identical re-submission
of that packet (stored raw here, so it *is* detected). -/
def c10_wrow : FlowRecord :=
  { ip_A := "a", ip_B := "b", tcp_A := some 1, tcp_B := some 2,
    udp_A := none, udp_B := none, window_scale_forward := 1,
    window_scale_reverse := 0, finalised := false, actions := .falsy,
    number_of_packets := 1,
    samples := [{ direction := some .forward, arrival_time := 10,
                  ip_total_length := 100, window_size := some 8, ack := some 0,
                  bits := some 2, tcp_syn := true, csum := none }],
    time_last := none }

/-- C10 witness: the amended theorem applied to the one-sample row
`c10_wrow` with a re-submitted first packet: the duplicate is detected
(via the iff, sample 1 matching raw) and the add returns the sentinel `0`
with the state unchanged. -/
theorem c10_duplicate_witness :
    fcip_check_duplicate c10_pkt1 c10_wrow = .ok true
    ∧ fcip_add_to_existing 99 c10_pkt1 1 ⟨[(1, c10_wrow)], 2⟩
        = .ok (0, ⟨[(1, c10_wrow)], 2⟩) := by
  constructor
  · exact ((c10_duplicate_iff_raw_tuple_matches.1 c10_pkt1
      { src_port := 1, dst_port := 2, window_size := 8, ack := 0,
        bits := 2, option := [3, 3, 1] } c10_wrow rfl).mpr
      ⟨0, by decide, { direction := some .forward, arrival_time := 10,
                       ip_total_length := 100, window_size := some 8,
                       ack := some 0, bits := some 2, tcp_syn := true,
                       csum := none }, rfl, rfl, rfl, rfl⟩)
  · exact c10_duplicate_iff_raw_tuple_matches.2 99 c10_pkt1 1
      ⟨[(1, c10_wrow)], 2⟩ c10_wrow rfl rfl rfl rfl

/-- A live flow row holding 4 accepted samples, all in the forward
direction (reachable in the source: each earlier add mutates the row
before the always-on `extra_debugging` block raises). -/
def c9_stale_row : FlowRecord :=
  { ip_A := "a", ip_B := "b", tcp_A := some 1, tcp_B := some 2,
    udp_A := none, udp_B := none, window_scale_forward := 0,
    window_scale_reverse := 0, finalised := false, actions := .falsy,
    number_of_packets := 4,
    samples := [{ direction := some .forward, arrival_time := 1,
                  ip_total_length := 100, window_size := some 1, ack := some 0,
                  bits := some 16, tcp_syn := false, csum := none },
                { direction := some .forward, arrival_time := 2,
                  ip_total_length := 100, window_size := some 2, ack := some 0,
                  bits := some 16, tcp_syn := false, csum := none },
                { direction := some .forward, arrival_time := 3,
                  ip_total_length := 100, window_size := some 3, ack := some 0,
                  bits := some 16, tcp_syn := false, csum := none },
                { direction := some .forward, arrival_time := 4,
                  ip_total_length := 100, window_size := some 4, ack := some 0,
                  bits := some 16, tcp_syn := false, csum := none }],
    time_last := none }

/-- The 5th (non-duplicate, forward) packet of that flow. -/
def c9_pkt5 : Pkt :=
  { ip4 := some { src := "a", dst := "b", total_length := 100 }
    tcp := some { src_port := 1, dst_port := 2, window_size := 5, ack := 0,
                  bits := 16, option := [] }
    udp := none }

/-- C9 counterexample. The 5th accepted sample of an all-forward flow
does *not* produce the promised finalisation and decision: because
`self.extra_debugging = 1`, `_fcip_add_to_existing` computes
`_calc_max_window_growth`, which raises UnboundLocalError whenever a
direction holds no non-zero window size (here: no reverse packets at
all), so `_statistical_qos_bandwidth_1` raises instead of returning
`continue_to_inspect=False` with a decision. -/
theorem c9_fifth_sample_can_raise_instead_of_deciding :
    statistical_qos_bandwidth_1 5 c9_pkt5 ⟨[(1, c9_stale_row)], 2⟩
      = .error "UnboundLocalError" := rfl

/-- The classification decision block of `_statistical_qos_bandwidth_1`
(lines 153–177) as a function of the looked-up row: low priority iff the
maximum packet size exceeds 1200 and the ratio of the minimum to the
maximum same-direction inter-packet interval (0 when either is falsy) is
below 0.25. -/
def qos_decision (r : FlowRecord) : Actions :=
  if calc_max_packet_size r > 1200 ∧
      (if calc_max_interpacket_interval r ≠ 0 ∧
          calc_min_interpacket_interval r ≠ 0 then
        calc_min_interpacket_interval r / calc_max_interpacket_interval r
      else 0) < 1 / 4 then
    .dict [("set_qos_tag", "QoS_treatment=low_priority")]
  else
    .dict [("set_qos_tag", "QoS_treatment=default_priority")]

/-- C9 (amended). Provided the append itself returns (which the source
does not guarantee: the always-on debugging statistics raise on rows
without a non-zero window in each direction — see the counterexample),
the claim holds. First conjunct: for a found, unfinalised flow whose
append returns packet count 5 (the 5th accepted, non-duplicate sample),
the classifier finalises the row, returns `continue_to_inspect=False`,
and returns / caches `qos_decision` of the updated row —
`{set_qos_tag: low_priority}` iff `max_packet_size > 1200` and
`interpacket_ratio < 0.25`, else default priority. Second conjunct: for a
found, finalised flow, the cached actions are returned unchanged with
`continue_to_inspect=False` for every subsequent packet. -/
theorem c9_fifth_sample_finalises_and_decides :
    (∀ (now : ℚ) (pkt : Pkt) (st : FcipState) (table_ref : Nat)
       (st1 : FcipState) (r : FlowRecord),
      pkt.tcp.isSome = true →
      fcip_check pkt st.table = .ok (some table_ref) →
      fcip_is_finalised st table_ref = false →
      fcip_add_to_existing now pkt table_ref st = .ok (5, st1) →
      lookupTable st1.table table_ref = some r →
      statistical_qos_bandwidth_1 now pkt st
        = .ok ({ valid := true, continue_to_inspect := false,
                 actions := qos_decision r },
               { fcip_finalise st1 table_ref with
                 table := updateTable (fcip_finalise st1 table_ref).table
                   table_ref (fun r0 => { r0 with actions := qos_decision r }) }))
    ∧ (∀ (now : ℚ) (pkt : Pkt) (st : FcipState) (table_ref : Nat)
         (r : FlowRecord),
        pkt.tcp.isSome = true →
        fcip_check pkt st.table = .ok (some table_ref) →
        fcip_is_finalised st table_ref = true →
        lookupTable st.table table_ref = some r →
        statistical_qos_bandwidth_1 now pkt st
          = .ok ({ valid := true, continue_to_inspect := false,
                   actions := r.actions }, st)) := by
  constructor
  · intro now pkt st table_ref st1 r htcp hfind hnf hadd hr
    rcases pkt with ⟨oip, otcp, oudp⟩
    cases otcp with
    | none => simp at htcp
    | some t =>
      have hlk2 : lookupTable (fcip_finalise st1 table_ref).table table_ref
          = some { r with finalised := true } := by
        unfold fcip_finalise
        rw [lookupTable_updateTable, hr]
        rfl
      simp only [statistical_qos_bandwidth_1, hfind, hnf, hadd, hlk2,
                 Bool.false_eq_true, if_false, qos_decision]
      rfl
  · intro now pkt st table_ref r htcp hfind hfin hr
    rcases pkt with ⟨oip, otcp, oudp⟩
    cases otcp with
    | none => simp at htcp
    | some t =>
      simp only [statistical_qos_bandwidth_1, hfind, hfin, if_true, hr]

/-- A live flow row holding 4 accepted samples alternating
forward/reverse (arrival times 1, 2, 3, 5). -/
def c9_wrow : FlowRecord :=
  { ip_A := "a", ip_B := "b", tcp_A := some 1, tcp_B := some 2,
    udp_A := none, udp_B := none, window_scale_forward := 0,
    window_scale_reverse := 0, finalised := false, actions := .falsy,
    number_of_packets := 4,
    samples := [{ direction := some .forward, arrival_time := 1,
                  ip_total_length := 100, window_size := some 1, ack := some 0,
                  bits := some 16, tcp_syn := false, csum := none },
                { direction := some .reverse, arrival_time := 2,
                  ip_total_length := 100, window_size := some 2, ack := some 0,
                  bits := some 16, tcp_syn := false, csum := none },
                { direction := some .forward, arrival_time := 3,
                  ip_total_length := 100, window_size := some 3, ack := some 0,
                  bits := some 16, tcp_syn := false, csum := none },
                { direction := some .reverse, arrival_time := 5,
                  ip_total_length := 100, window_size := some 4, ack := some 0,
                  bits := some 16, tcp_syn := false, csum := none }],
    time_last := none }

/-- `c9_wrow` after the 5th accepted sample (forward, arrival time 9). -/
def c9_wrow5 : FlowRecord :=
  { c9_wrow with
    number_of_packets := 5
    samples := c9_wrow.samples ++
      [{ direction := some .forward, arrival_time := 9, ip_total_length := 100,
         window_size := some 5, ack := some 0, bits := some 16,
         tcp_syn := false, csum := none }] }

/-- The table state holding `c9_wrow5`. -/
def c9_wst1 : FcipState := ⟨[(1, c9_wrow5)], 2⟩

/-- C9 witness: the amended theorem applied to the concrete flow
`c9_wrow` receiving its 5th sample. The packets are at most 100 bytes and
the same-direction gaps are 2, 6 (forward) and 3 (reverse), so the ratio
is 2/6 and the decision is the default-priority tag; the flow is
finalised with the decision cached. -/
theorem c9_fifth_sample_witness :
    statistical_qos_bandwidth_1 9 c9_pkt5 ⟨[(1, c9_wrow)], 2⟩
      = .ok ({ valid := true, continue_to_inspect := false,
               actions := .dict [("set_qos_tag", "QoS_treatment=default_priority")] },
             ⟨[(1, { c9_wrow5 with
                     finalised := true
                     actions := .dict
                       [("set_qos_tag", "QoS_treatment=default_priority")] })],
              2⟩) :=
  (c9_fifth_sample_finalises_and_decides.1 9 c9_pkt5 ⟨[(1, c9_wrow)], 2⟩ 1
    c9_wst1 c9_wrow5 rfl rfl rfl rfl rfl).trans rfl
